import Mathlib

/-!
Verification of the sdc11073 fork (entity mdib draft) against its
natural-language specification.  The definitions below are shallow
embeddings of the Python source:

* `src/src/sdc11073/entitymdib/consumermdib.py` (consumer mirror, version gate)
* `src/sdc11073/sdcdevice/subscriptionmgr.py` (subscriptions, housekeeping, old pool)
* `src/src/sdc11073/pysoap/soapclientpool.py` (new soap client pool)
* `src/sdc11073/sdcdevice/periodicreports.py` (periodic report loops)
* `src/src/sdc11073/entitymdib/providermdibxtra.py` (set_location)

State containers are abstracted to a version number plus an opaque payload
standing for all remaining XML attributes; logging is modelled explicitly
where a claim talks about it.
-/

/- ------------------------------------------------------------------
Consumer mdib: version gate and state application
(src/src/sdc11073/entitymdib/consumermdib.py)
------------------------------------------------------------------- -/

/-- Log messages that `EntityConsumerMdib._can_accept_mdib_version` can emit. -/
inductive MdibVersionLog where
  | could_not_check : MdibVersionLog
  | too_old_warning : MdibVersionLog
  | gap_warning : MdibVersionLog
deriving DecidableEq, Repr

/-- Embedding of `EntityConsumerMdib._can_accept_mdib_version` (consumermdib.py 207-224).
`check_disabled` is the class attribute `MDIB_VERSION_CHECK_DISABLED`,
`all_subscribed` is `self._sdc_client.all_subscribed`, `cur` is `self.mdib_version`,
`new_v` is the (possibly missing) mdib version of the incoming report.
Returns the accept decision and the log message emitted, if any. -/
def can_accept_mdib_version (check_disabled all_subscribed : Bool) (cur : Nat)
    (new_v : Option Nat) : Bool × Option MdibVersionLog :=
  if check_disabled then (true, none)
  else
    match new_v with
    | none => (false, some .could_not_check)
    | some v =>
      let log : Option MdibVersionLog :=
        if v < cur then some .too_old_warning
        else if cur + 1 < v then
          (if all_subscribed then some .gap_warning else none)
        else none
      (decide (cur ≤ v), log)

/-- State of a single abstract state container: its `StateVersion` and an opaque
payload standing for all other XML attributes. -/
structure AbstractState where
  StateVersion : Nat
  payload : Nat
deriving DecidableEq, Repr

/-- One state container inside a report part (`values_list` element). -/
structure ReportState where
  descriptor_handle : String
  StateVersion : Nat
  payload : Nat
deriving DecidableEq, Repr

/-- Consumer mdib state: the version group, the sequence-changed flag, the
`MDIB_VERSION_CHECK_DISABLED` switch, the `all_subscribed` flag of the sdc
client, and the entity table mapping descriptor handles to an optional
single state. -/
structure CMdib where
  mdib_version : Nat
  sequence_id : String
  instance_id : Option Nat
  seq_changed_flag : Bool
  check_disabled : Bool
  all_subscribed : Bool
  is_initialized : Bool
  entities : List (String × Option AbstractState)
deriving DecidableEq, Repr

/-- Embedding of `EntityConsumerMdib._sequence_id_changed` (consumermdib.py 226-230):
if the incoming sequence id differs, set the flag and overwrite the stored
sequence id; return the (possibly updated) mdib and the flag value. -/
def sequence_id_changed (m : CMdib) (sid : String) : CMdib × Bool :=
  let m1 := if m.sequence_id ≠ sid
    then { m with seq_changed_flag := true, sequence_id := sid }
    else m
  (m1, m1.seq_changed_flag)

/-- Embedding of `EntityConsumerMdib._can_accept_version` (consumermdib.py 200-205):
the mdib version gate runs first; only if it accepts is the sequence id
checked (and possibly the flag mutated). -/
def can_accept_version (m : CMdib) (new_v : Option Nat) (sid : String) :
    CMdib × Bool :=
  if (can_accept_mdib_version m.check_disabled m.all_subscribed m.mdib_version new_v).1 = false
  then (m, false)
  else
    let (m1, changed) := sequence_id_changed m sid
    if changed then (m1, false) else (m1, true)

/-- Log messages that `_has_new_state_usable_state_version` can emit. -/
inductive StateVersionLog where
  | missed_states : StateVersionLog
  | reduced_version : StateVersionLog
  | repeated_version_different_data : StateVersionLog
deriving DecidableEq, Repr

/-- Embedding of `EntityConsumerMdib._has_new_state_usable_state_version`
(consumermdib.py 547-582).  `states_differ` is the outcome of
`old_state_container.diff(new_state_container)` being non-empty.
Returns the accept decision and the log message emitted, if any. -/
def has_new_state_usable_state_version (old_v new_v : Nat) (states_differ : Bool)
    (is_buffered : Bool) : Bool × Option StateVersionLog :=
  let diff : Int := (new_v : Int) - (old_v : Int)
  if diff = 1 then (true, none)
  else if 1 < diff then (true, some .missed_states)
  else if diff < 0 then
    (false, if is_buffered then none else some .reduced_version)
  else
    (false, if states_differ then some .repeated_version_different_data else none)

/-- Lookup of an entity by descriptor handle (`entities.handle.get_one`);
`none` means the handle is unknown (a `KeyError` in the source). -/
def lookup_entity : List (String × Option AbstractState) → String →
    Option (Option AbstractState)
  | [], _ => none
  | p :: rest, h => if p.1 = h then some p.2 else lookup_entity rest h

/-- Overwrite the state of the entity with the given handle
(`old_state_container.update_from_other_container` / `entity.state = ...`). -/
def set_entity_state : List (String × Option AbstractState) → String →
    AbstractState → List (String × Option AbstractState)
  | [], _, _ => []
  | p :: rest, h, st =>
    if p.1 = h then (p.1, some st) :: set_entity_state rest h st
    else p :: set_entity_state rest h st

/-- Embedding of the per-state body of
`EntityConsumerMdib._process_incoming_states_report` (consumermdib.py 269-287):
look up the entity (a missing handle raises, modelled as `none`); if an old
state exists, apply the new one only when the version gate accepts it; if the
entity had no state yet, the incoming state is stored unconditionally. -/
def apply_state_report_entry (ents : List (String × Option AbstractState))
    (is_buffered : Bool) (s : ReportState) :
    Option (List (String × Option AbstractState)) :=
  match lookup_entity ents s.descriptor_handle with
  | none => none
  | some (some old) =>
    if (has_new_state_usable_state_version old.StateVersion s.StateVersion
        (decide (old.payload ≠ s.payload)) is_buffered).1 then
      some (set_entity_state ents s.descriptor_handle
        ⟨s.StateVersion, s.payload⟩)
    else some ents
  | some none =>
    some (set_entity_state ents s.descriptor_handle ⟨s.StateVersion, s.payload⟩)

/-- Fold of `apply_state_report_entry` over the flattened report parts; `none`
signals that a `KeyError` escaped (the source would leave earlier updates in
place and propagate the exception). -/
def apply_state_report_entries (is_buffered : Bool) :
    List (String × Option AbstractState) → List ReportState →
    Option (List (String × Option AbstractState))
  | ents, [] => some ents
  | ents, s :: rest =>
    match apply_state_report_entry ents is_buffered s with
    | none => none
    | some e1 => apply_state_report_entries is_buffered e1 rest

/-- Incoming episodic state report: the mdib version group of the envelope plus
the report parts, each with its `values_list` of states. -/
structure Report where
  mdib_version : Nat
  sequence_id : String
  instance_id : Option Nat
  report_parts : List (List ReportState)
deriving DecidableEq, Repr

/-- Embedding of `EntityConsumerMdib._update_from_mdib_version_group`
(consumermdib.py 232-238). -/
def update_from_mdib_version_group (m : CMdib) (r : Report) : CMdib :=
  { m with mdib_version := r.mdib_version, sequence_id := r.sequence_id,
           instance_id := r.instance_id }

/-- Embedding of `EntityConsumerMdib.process_incoming_metric_states_report`
(and its alert/component/operational siblings, consumermdib.py 315-371) after
the buffering decision: run the version gate (which may set the
sequence-changed flag), and on acceptance take over the version group and
apply the contained states.  `none` signals an escaped `KeyError`. -/
def process_incoming_states_report (m : CMdib) (r : Report)
    (is_buffered : Bool) : Option CMdib :=
  let gate := can_accept_version m (some r.mdib_version) r.sequence_id
  if gate.2 = false then some gate.1
  else
    let m2 := update_from_mdib_version_group gate.1 r
    match apply_state_report_entries is_buffered m2.entities r.report_parts.flatten with
    | none => none
    | some ents => some { m2 with entities := ents }

/-- GetMdib response content used by `reload_all`: descriptor handles, the
state containers, and the mdib version group of the response. -/
structure GetMdibResponse where
  descriptor_handles : List String
  states : List ReportState
  mdib_version : Option Nat
  sequence_id : String
  instance_id : Option Nat
deriving DecidableEq, Repr

/-- Fold of `add_state_containers` (mdibbase.py 307-323): a state whose
descriptor handle is unknown is logged and skipped. -/
def add_state_containers (ents : List (String × Option AbstractState)) :
    List ReportState → List (String × Option AbstractState)
  | [] => ents
  | s :: rest =>
    match lookup_entity ents s.descriptor_handle with
    | none => add_state_containers ents rest
    | some _ =>
      add_state_containers
        (set_entity_state ents s.descriptor_handle ⟨s.StateVersion, s.payload⟩) rest

/-- Embedding of `EntityConsumerMdib.reload_all` (consumermdib.py 91-139) with
the network interaction (GetMdib) passed in as data: the sequence-changed flag
is cleared, the tables are rebuilt from the response, the version group is
taken over (a missing mdib version defaults to 0), and the mdib is marked
initialized.  The context-state query and the buffered-notification drain are
driven by further network traffic and are not part of this function's state
change. -/
def reload_all (m : CMdib) (resp : GetMdibResponse) : CMdib :=
  let ents0 : List (String × Option AbstractState) :=
    resp.descriptor_handles.map (fun h => (h, none))
  { m with
    seq_changed_flag := false,
    entities := add_state_containers ents0 resp.states,
    mdib_version := resp.mdib_version.getD 0,
    sequence_id := resp.sequence_id,
    instance_id := resp.instance_id,
    is_initialized := true }

/- ------------------------------------------------------------------
Generic association-list helpers (python dict operations)
------------------------------------------------------------------- -/

/-- Lookup in an association list (python `dict.get`). -/
def assoc_lookup {κ α : Type} [DecidableEq κ] : List (κ × α) → κ → Option α
  | [], _ => none
  | p :: rest, k => if p.1 = k then some p.2 else assoc_lookup rest k

/-- Replace the value stored under an existing key (python `dict[k] = v` for a
key that is present). -/
def assoc_set {κ α : Type} [DecidableEq κ] : List (κ × α) → κ → α → List (κ × α)
  | [], _, _ => []
  | p :: rest, k, v =>
    if p.1 = k then (p.1, v) :: assoc_set rest k v else p :: assoc_set rest k v

/-- Remove a key (python `dict.pop`). -/
def assoc_remove {κ α : Type} [DecidableEq κ] : List (κ × α) → κ → List (κ × α)
  | [], _ => []
  | p :: rest, k =>
    if p.1 = k then assoc_remove rest k else p :: assoc_remove rest k

/- ------------------------------------------------------------------
Subscriptions (src/sdc11073/sdcdevice/subscriptionmgr.py)
------------------------------------------------------------------- -/

/-- Truncation of a rational toward zero, python `int(...)` on a float. -/
def py_int (q : ℚ) : ℤ := if 0 ≤ q then ⌊q⌋ else ⌈q⌉

/-- Maximal number of delivery errors, `SubscriptionBase.MAX_NOTIFY_ERRORS`
(subscriptionmgr.py 111). -/
def MAX_NOTIFY_ERRORS : Nat := 1

/-- State of one device-side subscription (`SubscriptionBase` /
`DevSubscription`).  `soap_client_netloc` is the netloc of the soap client
assigned via `set_soap_client` (`none` if no client was assigned).  The
roundtrip-time statistics of the source are wall-clock measurements and are
not modelled. -/
structure Subscription where
  notify_to_netloc : String
  soap_client_netloc : Option String
  expire_seconds : ℚ
  started : ℚ
  max_subscription_duration : ℚ
  notify_errors : Nat
  is_closed : Bool
  is_connection_error : Bool
  filters : List String
deriving DecidableEq, Repr

/-- Embedding of `SubscriptionBase.remaining_seconds` (subscriptionmgr.py
176-179): truncate the remaining duration to an integer and clamp negative
values to 0.  `now` stands for `time.monotonic()`. -/
def remaining_seconds (s : Subscription) (now : ℚ) : ℤ :=
  let duration := py_int (s.expire_seconds - (now - s.started))
  if duration < 0 then 0 else duration

/-- Embedding of `SubscriptionBase.has_delivery_failure` (subscriptionmgr.py
185-187). -/
def has_delivery_failure (s : Subscription) : Bool :=
  decide (MAX_NOTIFY_ERRORS ≤ s.notify_errors)

/-- Embedding of `SubscriptionBase.is_valid` (subscriptionmgr.py 193-197). -/
def is_valid (s : Subscription) (now : ℚ) : Bool :=
  if s.is_closed then false
  else decide (0 < remaining_seconds s now) && !(has_delivery_failure s)

/-- Embedding of `SubscriptionBase.matches` (subscriptionmgr.py 199-204);
`action` is already stripped of surrounding whitespace. -/
def subscription_matches (s : Subscription) (action : String) : Bool :=
  s.filters.any (fun filter_string => action.data.isSuffixOf filter_string.data)

/-- Embedding of `SubscriptionBase.renew` (subscriptionmgr.py 165-170).
A missing or zero `expires` (falsy in python) selects the maximal duration. -/
def subscription_renew (s : Subscription) (now : ℚ) (expires : Option ℚ) :
    Subscription :=
  { s with
    started := now,
    expire_seconds :=
      match expires with
      | some e => if e = 0 then s.max_subscription_duration
                  else min e s.max_subscription_duration
      | none => s.max_subscription_duration }

/-- Outcome of the notification POST inside
`DevSubscription.send_notification_report`. -/
inductive DeliveryOutcome where
  | success : DeliveryOutcome
  | http_return_code_error : DeliveryOutcome
  | connection_error : DeliveryOutcome
deriving DecidableEq, Repr

/-- Embedding of `DevSubscription.send_notification_report`
(subscriptionmgr.py 256-285): nothing happens for an invalid subscription; a
successful POST resets `notify_errors` and the connection-error flag; an
`HTTPReturnCodeError` increments `notify_errors`; any other exception
increments `notify_errors` and sets the connection-error flag (the exception
is re-raised and swallowed by `_send_notification_report`). -/
def send_notification_report (s : Subscription) (now : ℚ)
    (outcome : DeliveryOutcome) : Subscription :=
  if is_valid s now = false then s
  else
    match outcome with
    | .success => { s with notify_errors := 0, is_connection_error := false }
    | .http_return_code_error => { s with notify_errors := s.notify_errors + 1 }
    | .connection_error =>
      { s with notify_errors := s.notify_errors + 1, is_connection_error := true }

/-- Embedding of `SubscriptionsManagerBase._do_housekeeping`
(subscriptionmgr.py 461-493) up to the pool interaction: remove every invalid
subscription, collect the soap-client netlocs of the invalid subscriptions
that have a connection error, then also remove every remaining subscription
whose soap client uses one of those netlocs.  Returns the remaining
subscription table and `unreachable_netlocs` (the list later handed to the
soap client pool). -/
def do_housekeeping (subs : List Subscription) (now : ℚ) :
    List Subscription × List String :=
  let invalid := subs.filter (fun s => !(is_valid s now))
  let unreachable :=
    (invalid.filter (fun s => s.is_connection_error)).filterMap
      (fun s => s.soap_client_netloc)
  let remaining1 := subs.filter (fun s => is_valid s now)
  let remaining2 := remaining1.filter (fun s =>
    match s.soap_client_netloc with
    | some n => !(unreachable.contains n)
    | none => true)
  (remaining2, unreachable)

/-- Embedding of `SubscriptionsManagerBase.send_to_subscribers`
(subscriptionmgr.py 410-422): send the report to every subscription whose
filter matches the action (each POST producing some outcome), then run
housekeeping. -/
def send_to_subscribers (subs : List Subscription) (now : ℚ) (action : String)
    (outcome : Subscription → DeliveryOutcome) : List Subscription × List String :=
  do_housekeeping
    (subs.map (fun s =>
      if subscription_matches s action then send_notification_report s now (outcome s)
      else s))
    now

/- ------------------------------------------------------------------
Soap client pool used by the subscription manager
(src/sdc11073/sdcdevice/subscriptionmgr.py 75-107)
------------------------------------------------------------------- -/

/-- Entry of the subscription manager's `SoapClientPool`: the soap client
(modelled by its open/closed status) and the registered user references
(modelled by numeric ids). -/
structure MgrPoolEntry where
  client_open : Bool
  user_refs : List Nat
deriving DecidableEq, Repr

/-- Embedding of `SoapClientPool.forget` (subscriptionmgr.py 92-99): `none`
models the `ValueError` raised for an unknown netloc or a reference that is
not registered; otherwise the reference is removed, and when no references
remain the client is closed and the entry dropped.  The returned flag tells
whether the transport was closed. -/
def mgr_pool_forget (pool : List (String × MgrPoolEntry)) (netloc : String)
    (ref : Nat) : Option (List (String × MgrPoolEntry) × Bool) :=
  match assoc_lookup pool netloc with
  | none => none
  | some entry =>
    if entry.user_refs.contains ref then
      let refs := entry.user_refs.erase ref
      if refs.isEmpty then some (assoc_remove pool netloc, true)
      else some (assoc_set pool netloc { entry with user_refs := refs }, false)
    else none

/-- Embedding of `SoapClientPool.report_unreachable` (subscriptionmgr.py
101-107): an unknown netloc is ignored; otherwise every registered reference
is notified via `on_unreachable` (the returned list) and the entry dropped. -/
def mgr_pool_report_unreachable (pool : List (String × MgrPoolEntry))
    (netloc : String) : List (String × MgrPoolEntry) × List Nat :=
  match assoc_lookup pool netloc with
  | none => (pool, [])
  | some entry => (assoc_remove pool netloc, entry.user_refs)

/-- Embedding of the pool phase of `_do_housekeeping` (subscriptionmgr.py
490-493): for every unreachable netloc, tell the pool to forget it (the
manager itself being the user reference) and report it unreachable.  `none`
models a `ValueError` escaping from `forget`. -/
def pool_forget_and_report (mgr_ref : Nat) :
    List (String × MgrPoolEntry) → List String →
    Option (List (String × MgrPoolEntry))
  | pool, [] => some pool
  | pool, n :: rest =>
    match mgr_pool_forget pool n mgr_ref with
    | none => none
    | some (p1, _) => pool_forget_and_report mgr_ref (mgr_pool_report_unreachable p1 n).1 rest

/- ------------------------------------------------------------------
Soap client pool with per-epr callbacks
(src/src/sdc11073/pysoap/soapclientpool.py)
------------------------------------------------------------------- -/

/-- Entry of the entity-mdib `SoapClientPool` (`_SoapClientEntry`,
soapclientpool.py 15-59): the soap client (modelled by a numeric id, `none`
when not created or closed) and the callbacks per epr (numeric ids). -/
structure PoolEntry where
  soap_client : Option Nat
  callbacks : List (String × List Nat)
deriving DecidableEq, Repr

/-- Embedding of `SoapClientPool.register_netloc_user` (soapclientpool.py
72-81).  For a known netloc the source checks `unreachable_callback not in
entry.callbacks`, which tests membership among the dict KEYS (the eprs); a
callback never equals an epr string, so `add_callback` always runs, and it
raises (`none`) when the callback is already registered for this epr. -/
def register_netloc_user (pool : List (String × PoolEntry)) (netloc epr : String)
    (cb : Nat) : Option (List (String × PoolEntry)) :=
  match assoc_lookup pool netloc with
  | none => some (pool ++ [(netloc, ⟨none, [(epr, [cb])]⟩)])
  | some entry =>
    let cur := (assoc_lookup entry.callbacks epr).getD []
    if cur.contains cb then none
    else
      let cbs1 :=
        if (assoc_lookup entry.callbacks epr).isSome
        then assoc_set entry.callbacks epr (cur ++ [cb])
        else entry.callbacks ++ [(epr, cur ++ [cb])]
      some (assoc_set pool netloc { entry with callbacks := cbs1 })

/-- Embedding of `SoapClientPool.get_soap_client` (soapclientpool.py 83-98):
an unregistered netloc raises (`none`); otherwise the client is created
lazily (`fresh_client` is the id the factory would produce) and returned. -/
def get_soap_client (pool : List (String × PoolEntry)) (netloc : String)
    (fresh_client : Nat) : Option (List (String × PoolEntry) × Nat) :=
  match assoc_lookup pool netloc with
  | none => none
  | some entry =>
    match entry.soap_client with
    | some c => some (pool, c)
    | none =>
      some (assoc_set pool netloc { entry with soap_client := some fresh_client },
            fresh_client)

/-- Embedding of `_SoapClientEntry.forget_epr` (soapclientpool.py 38-44): an
unknown epr is ignored; otherwise its callbacks are invoked (returned list),
the epr dropped, and the client closed if no callbacks remain. -/
def entry_forget_epr (entry : PoolEntry) (epr : String) : PoolEntry × List Nat :=
  match assoc_lookup entry.callbacks epr with
  | none => (entry, [])
  | some cbs =>
    let callbacks1 := assoc_remove entry.callbacks epr
    ({ soap_client := if callbacks1.isEmpty then none else entry.soap_client,
       callbacks := callbacks1 }, cbs)

/-- Embedding of `_SoapClientEntry.forget_all` (soapclientpool.py 46-51):
invoke every callback, clear the registry, close the client. -/
def entry_forget_all (entry : PoolEntry) : PoolEntry × List Nat :=
  (⟨none, []⟩, (entry.callbacks.map (fun p => p.2)).flatten)

/-- Embedding of `SoapClientPool.report_unreachable_netloc` (soapclientpool.py
114-122): raises (`none`) for an unknown netloc; otherwise the entry is
popped and all its callbacks invoked. -/
def report_unreachable_netloc (pool : List (String × PoolEntry))
    (netloc : String) : Option (List (String × PoolEntry) × List Nat) :=
  match assoc_lookup pool netloc with
  | none => none
  | some entry => some (assoc_remove pool netloc, (entry_forget_all entry).2)

/-- Embedding of `SoapClientPool.report_unreachable_epr` (soapclientpool.py
124-138): raises (`none`) for an unknown netloc; otherwise the callbacks of
the epr are invoked and dropped, and the netloc entry is popped only when no
callbacks for other eprs remain. -/
def report_unreachable_epr (pool : List (String × PoolEntry))
    (netloc epr : String) : Option (List (String × PoolEntry) × List Nat) :=
  match assoc_lookup pool netloc with
  | none => none
  | some entry =>
    let (e1, cbs) := entry_forget_epr entry epr
    if e1.callbacks.isEmpty then some (assoc_remove pool netloc, cbs)
    else some (assoc_set pool netloc e1, cbs)

/- ------------------------------------------------------------------
Periodic reports (src/sdc11073/sdcdevice/periodicreports.py)
------------------------------------------------------------------- -/

/-- One queue entry, `PeriodicStates = namedtuple(mdib_version, states)`
(periodicreports.py 8); the state copies are modelled by numeric ids. -/
structure PeriodicStatesEntry where
  mdib_version : Nat
  states : List Nat
deriving DecidableEq, Repr

/-- The five per-family queues of `PeriodicReportsHandler`
(periodicreports.py 46-50). -/
structure PeriodicQueues where
  metric_reports : List PeriodicStatesEntry
  alert_reports : List PeriodicStatesEntry
  component_state_reports : List PeriodicStatesEntry
  context_state_reports : List PeriodicStatesEntry
  operational_state_reports : List PeriodicStatesEntry
deriving DecidableEq, Repr

/-- What one loop iteration hands to the subscription manager: per family,
`none` when nothing was sent, otherwise the list of `PeriodicStates` entries
of the report. -/
structure PeriodicSends where
  metric : Option (List PeriodicStatesEntry)
  alert : Option (List PeriodicStatesEntry)
  component : Option (List PeriodicStatesEntry)
  context : Option (List PeriodicStatesEntry)
  operational : Option (List PeriodicStatesEntry)
deriving DecidableEq, Repr

/-- Embedding of `PeriodicReportsHandler._store_for_periodic_report`
(periodicreports.py 94-97): append a `(mdib_version, state copies)` entry. -/
def store_for_periodic_report (dest_list : List PeriodicStatesEntry)
    (mdib_version : Nat) (state_updates : List Nat) : List PeriodicStatesEntry :=
  dest_list ++ [⟨mdib_version, state_updates⟩]

/-- Per-family body of one iteration of
`PeriodicReportsHandler._simple_periodic_reports_send_loop`
(periodicreports.py 117-124): take-and-clear the queue; send only when it was
non-empty. -/
def take_and_clear (reports_list : List PeriodicStatesEntry) :
    Option (List PeriodicStatesEntry) × List PeriodicStatesEntry :=
  if reports_list.isEmpty then (none, reports_list) else (some reports_list, [])

/-- One iteration of `_simple_periodic_reports_send_loop` (periodicreports.py
99-124) over the five families: the new queues and what was sent. -/
def simple_periodic_tick (q : PeriodicQueues) : PeriodicQueues × PeriodicSends :=
  let m := take_and_clear q.metric_reports
  let a := take_and_clear q.alert_reports
  let c := take_and_clear q.component_state_reports
  let x := take_and_clear q.context_state_reports
  let o := take_and_clear q.operational_state_reports
  (⟨m.2, a.2, c.2, x.2, o.2⟩, ⟨m.1, a.1, c.1, x.1, o.1⟩)

/-- Descriptor classification used by `_periodic_reports_send_loop`
(periodicreports.py 152-163). -/
inductive DescrKind where
  | metric : DescrKind
  | realtime_sample_array_metric : DescrKind
  | system_context_or_component : DescrKind
  | alert : DescrKind
  | operational : DescrKind
  | context_descriptor : DescrKind
  | other : DescrKind
deriving DecidableEq, Repr

/-- Provider mdib data read by `_periodic_reports_send_loop`: the version
group, the descriptor kinds, the single states by descriptor handle, the
context states by descriptor handle, and the `retrievability_periodic` map
from period (milliseconds) to descriptor handles. -/
structure PMdib where
  mdib_version : Nat
  sequence_id : String
  kinds : List (String × DescrKind)
  single_states : List (String × Nat)
  context_states : List (String × List Nat)
  retrievability_periodic : List (Nat × List String)
deriving DecidableEq, Repr

/-- Classification loop of `_periodic_reports_send_loop` (periodicreports.py
152-163): partition the handles of the period into the five families; a
realtime sample array metric falls through every branch and is dropped, as is
any other unlisted kind.  `none` models the `KeyError` of
`descriptions.handle.get_one` for an unknown handle. -/
def classify_handles (kinds : List (String × DescrKind)) :
    List String →
    Option (List String × List String × List String × List String × List String)
  | [] => some ([], [], [], [], [])
  | h :: rest =>
    match assoc_lookup kinds h with
    | none => none
    | some k =>
      match classify_handles kinds rest with
      | none => none
      | some (ms, cs, als, os, ctx) =>
        match k with
        | .metric => some (h :: ms, cs, als, os, ctx)
        | .system_context_or_component => some (ms, h :: cs, als, os, ctx)
        | .alert => some (ms, cs, h :: als, os, ctx)
        | .operational => some (ms, cs, als, h :: os, ctx)
        | .context_descriptor => some (ms, cs, als, os, h :: ctx)
        | _ => some (ms, cs, als, os, ctx)

/-- Snapshot of the single states of the given handles
(`states.descriptorHandle.get_one(h).mk_copy()`, periodicreports.py 168-171);
`none` models the `KeyError` for a handle with no state. -/
def fetch_states (single_states : List (String × Nat)) :
    List String → Option (List Nat)
  | [] => some []
  | h :: rest =>
    match assoc_lookup single_states h, fetch_states single_states rest with
    | some st, some sts => some (st :: sts)
    | _, _ => none

/-- One iteration of `PeriodicReportsHandler._periodic_reports_send_loop`
(periodicreports.py 126-201) for the timer of `period_ms`: classify the
handles registered for the period, snapshot their current states under the
mdib lock, and send one single-entry report per non-empty family tagged with
the current mdib version.  The loop body never touches the five queues, so
they are returned unchanged. -/
def periodic_reports_tick (q : PeriodicQueues) (mdib : PMdib) (period_ms : Nat) :
    Option (PeriodicQueues × PeriodicSends) :=
  let all_handles := (assoc_lookup mdib.retrievability_periodic period_ms).getD []
  match classify_handles mdib.kinds all_handles with
  | none => none
  | some (metrics, components, alerts, operationals, contexts) =>
    match fetch_states mdib.single_states metrics,
          fetch_states mdib.single_states components,
          fetch_states mdib.single_states alerts,
          fetch_states mdib.single_states operationals with
    | some metric_states, some component_states, some alert_states,
      some operational_states =>
      let context_states :=
        (contexts.map (fun h => (assoc_lookup mdib.context_states h).getD [])).flatten
      let send (sts : List Nat) : Option (List PeriodicStatesEntry) :=
        if sts.isEmpty then none else some [⟨mdib.mdib_version, sts⟩]
      some (q, ⟨send metric_states, send alert_states, send component_states,
                send context_states, send operational_states⟩)
    | _, _, _, _ => none

/- ------------------------------------------------------------------
Provider: location context association
(src/src/sdc11073/entitymdib/providermdibxtra.py 61-91)
------------------------------------------------------------------- -/

/-- Values of the `ContextAssociation` attribute of a context state. -/
inductive ContextAssoc where
  | no_association : ContextAssoc
  | pre_association : ContextAssoc
  | associated : ContextAssoc
  | disassociated : ContextAssoc
deriving DecidableEq, Repr

/-- A location context state: its own handle, the association attributes, and
an opaque location payload (the fields written by
`update_from_sdc_location`). -/
structure LocationContextState where
  Handle : String
  ContextAssociation : ContextAssoc
  BindingMdibVersion : Option Nat
  UnbindingMdibVersion : Option Nat
  location_detail : String
deriving DecidableEq, Repr

/-- Provider mdib restricted to one location context descriptor: the current
mdib version and the context states of that descriptor. -/
structure ProviderContextMdib where
  mdib_version : Nat
  states : List LocationContextState
deriving DecidableEq, Repr

/-- Modelled from the spec: the transaction manager behind
`mdib.context_state_transaction()` and `mgr.mk_context_state` is not part of
the sources (only its caller `set_location` and a test are).  Per spec
section 4.8 and the multi-state scenario, a context state created with
`set_associated = True` gets `ContextAssociation = Associated` and
`BindingMdibVersion = N`, where `N` is the mdib version of the commit. -/
def mk_context_state (new_handle loc : String) (set_associated : Bool)
    (commit_version : Nat) : LocationContextState :=
  { Handle := new_handle,
    ContextAssociation := if set_associated then .associated else .no_association,
    BindingMdibVersion := if set_associated then some commit_version else none,
    UnbindingMdibVersion := none,
    location_detail := loc }

/-- Embedding of `ProviderMdibMethods.set_location` (providermdibxtra.py
61-91) together with the transaction commit.  The body is source code: every
location context state that is currently `Associated` is set to
`Disassociated` with `UnbindingMdibVersion = mdib.mdib_version`, the version
read inside the transaction body (the pre-commit version).  The commit is
modelled from the spec: the transaction manager is not part of the sources;
per spec section 4.2 the commit on scope exit bumps `mdib_version` by 1 and
applies the working copies and the new state. -/
def set_location (m : ProviderContextMdib) (new_handle loc : String)
    (set_associated : Bool) : ProviderContextMdib :=
  let commit_version := m.mdib_version + 1
  let changed := m.states.map (fun st =>
    if st.ContextAssociation = ContextAssoc.associated then
      { st with ContextAssociation := .disassociated,
                UnbindingMdibVersion := some m.mdib_version }
    else st)
  { mdib_version := commit_version,
    states := changed ++ [mk_context_state new_handle loc set_associated commit_version] }

/- ------------------------------------------------------------------
GetStatus / Renew responses (src/sdc11073/pysoap/msgfactory.py 820-840)
------------------------------------------------------------------- -/

/-- The `Expires` duration carried by a GetStatusResponse or RenewResponse
(msgfactory.py 820-840); the source serializes `remaining_seconds` with
`isoduration.duration_string`. -/
structure StatusResponse where
  Expires : ℤ
deriving DecidableEq, Repr

/-- Embedding of `MessageFactoryDevice.mk_getstatus_response_message`
(msgfactory.py 831-840): the response carries the given remaining seconds as
its `Expires` duration. -/
def mk_getstatus_response_message (remaining : ℤ) : StatusResponse :=
  ⟨remaining⟩

/-- Embedding of `MessageFactoryDevice.mk_renew_response_message`
(msgfactory.py 820-829). -/
def mk_renew_response_message (remaining : ℤ) : StatusResponse :=
  ⟨remaining⟩

/-- Embedding of `SubscriptionsManagerBase.on_get_status_request`
(subscriptionmgr.py 359-370) for a known subscription. -/
def on_get_status_request (s : Subscription) (now : ℚ) : StatusResponse :=
  mk_getstatus_response_message (remaining_seconds s now)

/-- Embedding of `SubscriptionsManagerBase.on_renew_request`
(subscriptionmgr.py 372-386) for a known subscription. -/
def on_renew_request (s : Subscription) (now : ℚ) (expires : Option ℚ) :
    Subscription × StatusResponse :=
  let s1 := subscription_renew s now expires
  (s1, mk_renew_response_message (remaining_seconds s1 now))

/-- Number of context states of the descriptor that are currently
`Associated` (the measure of the context-association invariant). -/
def count_associated (l : List LocationContextState) : Nat :=
  (l.filter (fun st => decide (st.ContextAssociation = ContextAssoc.associated))).length

/- ------------------------------------------------------------------
Helper lemmas about association lists
------------------------------------------------------------------- -/

theorem assoc_lookup_remove_self {κ α : Type} [DecidableEq κ]
    (l : List (κ × α)) (k : κ) : assoc_lookup (assoc_remove l k) k = none := by
  induction l with
  | nil => rfl
  | cons p rest ih =>
    by_cases hp : p.1 = k
    · simpa [assoc_remove, hp] using ih
    · simp [assoc_remove, assoc_lookup, hp, ih]

theorem assoc_lookup_set_self {κ α : Type} [DecidableEq κ]
    (l : List (κ × α)) (k : κ) (v : α) :
    assoc_lookup (assoc_set l k v) k = (assoc_lookup l k).map (fun _ => v) := by
  induction l with
  | nil => rfl
  | cons p rest ih =>
    by_cases hp : p.1 = k
    · simp [assoc_set, assoc_lookup, hp]
    · simp [assoc_set, assoc_lookup, hp, ih]

theorem assoc_lookup_append_of_none {κ α : Type} [DecidableEq κ]
    (l1 l2 : List (κ × α)) (k : κ) (h : assoc_lookup l1 k = none) :
    assoc_lookup (l1 ++ l2) k = assoc_lookup l2 k := by
  induction l1 with
  | nil => rfl
  | cons p rest ih =>
    by_cases hp : p.1 = k
    · simp [assoc_lookup, hp] at h
    · simp only [assoc_lookup, hp] at h
      simpa [assoc_lookup, hp] using ih h

/- ------------------------------------------------------------------
Claim C2
------------------------------------------------------------------- -/

/-- Claim C2, counterexample: with version checking enabled, current
mdib version 5 and an incoming report with mdib version 8 (a gap larger than
one), the report is accepted, but no gap warning is logged when the consumer
client does not have `all_subscribed` set — the claim asserts the warning
unconditionally. -/
theorem c2_gap_warning_counterexample :
    (can_accept_mdib_version false false 5 (some 8)).1 = true ∧
    (can_accept_mdib_version false false 5 (some 8)).2 ≠ some MdibVersionLog.gap_warning := by
  decide

/-- Claim C2, amended: with version checking enabled, the per-report mdib
version gate accepts an incoming report exactly when `new >= current`; a gap
warning is logged exactly when `new > current + 1` and the consumer client
has `all_subscribed` set; a too-old log is emitted exactly when
`new < current` (and the report dropped). -/
theorem c2_version_gate_amended (all_subscribed : Bool) (cur v : Nat) :
    (can_accept_mdib_version false all_subscribed cur (some v)).1 = decide (cur ≤ v) ∧
    ((can_accept_mdib_version false all_subscribed cur (some v)).2 =
        some MdibVersionLog.gap_warning ↔ (cur + 1 < v ∧ all_subscribed = true)) ∧
    ((can_accept_mdib_version false all_subscribed cur (some v)).2 =
        some MdibVersionLog.too_old_warning ↔ v < cur) := by
  refine ⟨rfl, ?_, ?_⟩ <;>
    · simp only [can_accept_mdib_version, Bool.false_eq_true, if_false]
      split_ifs <;> simp_all <;> omega

/-- Claim C2 amended, witness at `current = 5`, `new = 8`, `all_subscribed`
not set. -/
theorem c2_version_gate_amended_witness :
    (can_accept_mdib_version false false 5 (some 8)).1 = decide (5 ≤ 8) ∧
    ((can_accept_mdib_version false false 5 (some 8)).2 =
        some MdibVersionLog.gap_warning ↔ (5 + 1 < 8 ∧ false = true)) ∧
    ((can_accept_mdib_version false false 5 (some 8)).2 =
        some MdibVersionLog.too_old_warning ↔ 8 < 5) :=
  c2_version_gate_amended false 5 8

/- ------------------------------------------------------------------
Claim C6
------------------------------------------------------------------- -/

/-- Claim C6, counterexample: a state with `StateVersion` 4 arriving while
version 5 is stored is rejected even when the report is processed with the
buffered flag set — the claim asserts it would be applied. -/
theorem c6_buffered_reduced_version_counterexample :
    (has_new_state_usable_state_version 5 4 false true).1 = false := by decide

/-- Claim C6, amended: a state with `new.StateVersion < old.StateVersion` is
always rejected; the buffered flag only suppresses the "reduced state
version" error log. -/
theorem c6_reduced_version_amended (old_v new_v : Nat)
    (states_differ is_buffered : Bool) (h : new_v < old_v) :
    (has_new_state_usable_state_version old_v new_v states_differ is_buffered).1 = false ∧
    ((has_new_state_usable_state_version old_v new_v states_differ is_buffered).2 =
        some StateVersionLog.reduced_version ↔ is_buffered = false) := by
  simp only [has_new_state_usable_state_version]
  have h1 : ¬((new_v : Int) - (old_v : Int) = 1) := by omega
  have h2 : ¬(1 < (new_v : Int) - (old_v : Int)) := by omega
  have h3 : (new_v : Int) - (old_v : Int) < 0 := by omega
  rw [if_neg h1, if_neg h2, if_pos h3]
  cases is_buffered <;> simp

/-- Claim C6 amended, witness at `old = 5`, `new = 4`. -/
theorem c6_reduced_version_amended_witness :
    (4 : Nat) < 5 ∧
    ((has_new_state_usable_state_version 5 4 false true).1 = false ∧
     ((has_new_state_usable_state_version 5 4 false true).2 =
         some StateVersionLog.reduced_version ↔ true = false)) :=
  ⟨by decide, c6_reduced_version_amended 5 4 false true (by decide)⟩

/- ------------------------------------------------------------------
Claim C10
------------------------------------------------------------------- -/

/-- Claim C10: `remaining_seconds` is never negative, once the expiry
deadline has passed it returns 0 (shown for `s2`), and the GetStatus and
Renew responses carry exactly this non-negative value as their `Expires`
duration. -/
theorem c10_remaining_seconds_nonneg (s s2 : Subscription) (now : ℚ)
    (expires : Option ℚ)
    (h_passed : s2.expire_seconds - (now - s2.started) ≤ 0) :
    0 ≤ remaining_seconds s now ∧
    remaining_seconds s2 now = 0 ∧
    (on_get_status_request s now).Expires = remaining_seconds s now ∧
    0 ≤ (on_get_status_request s now).Expires ∧
    0 ≤ ((on_renew_request s now expires).2).Expires := by
  have nonneg : ∀ t : Subscription, 0 ≤ remaining_seconds t now := by
    intro t
    simp only [remaining_seconds]
    split_ifs <;> omega
  refine ⟨nonneg s, ?_, rfl, nonneg s, nonneg _⟩
  have hd : py_int (s2.expire_seconds - (now - s2.started)) ≤ 0 := by
    simp only [py_int]
    split_ifs with h0
    · have hq : s2.expire_seconds - (now - s2.started) = 0 := le_antisymm h_passed h0
      simp [hq]
    · exact Int.ceil_le.mpr (by exact_mod_cast h_passed)
  simp only [remaining_seconds]
  split_ifs <;> omega

/-- Claim C10, witness for a subscription whose deadline has passed
(`expire_seconds = 1`, `started = 0`, `now = 5`). -/
theorem c10_remaining_seconds_nonneg_witness :
    ((⟨"a", none, 1, 0, 7200, 0, false, false, []⟩ : Subscription).expire_seconds -
        ((5 : ℚ) - (⟨"a", none, 1, 0, 7200, 0, false, false, []⟩ : Subscription).started) ≤ 0) ∧
    (0 ≤ remaining_seconds ⟨"a", none, 1, 0, 7200, 0, false, false, []⟩ 5 ∧
     remaining_seconds ⟨"a", none, 1, 0, 7200, 0, false, false, []⟩ 5 = 0 ∧
     (on_get_status_request ⟨"a", none, 1, 0, 7200, 0, false, false, []⟩ 5).Expires =
       remaining_seconds ⟨"a", none, 1, 0, 7200, 0, false, false, []⟩ 5 ∧
     0 ≤ (on_get_status_request ⟨"a", none, 1, 0, 7200, 0, false, false, []⟩ 5).Expires ∧
     0 ≤ ((on_renew_request ⟨"a", none, 1, 0, 7200, 0, false, false, []⟩ 5 none).2).Expires) :=
  ⟨by norm_num, c10_remaining_seconds_nonneg _ _ 5 none (by norm_num)⟩

/- ------------------------------------------------------------------
Claim C5
------------------------------------------------------------------- -/

theorem count_associated_map_disassociate (l : List LocationContextState) (v : Nat) :
    count_associated (l.map (fun st =>
      if st.ContextAssociation = ContextAssoc.associated then
        { st with ContextAssociation := ContextAssoc.disassociated,
                  UnbindingMdibVersion := some v }
      else st)) = 0 := by
  induction l with
  | nil => rfl
  | cons st rest ih =>
    by_cases h : st.ContextAssociation = ContextAssoc.associated <;>
      simp [count_associated, h] at ih ⊢ <;> simpa [count_associated] using ih

/-- Claim C5, counterexample: starting from mdib version 5 with one
associated location context state, `set_location` commits at mdib version
`N = 6`, but the outgoing state's `UnbindingMdibVersion` is 5 (the
pre-commit version), not `N` as the claim states. -/
theorem c5_unbinding_version_counterexample :
    (set_location ⟨5, [⟨"s1", ContextAssoc.associated, some 3, none, "old"⟩]⟩
        "s2" "newloc" true).mdib_version = 6 ∧
    ((set_location ⟨5, [⟨"s1", ContextAssoc.associated, some 3, none, "old"⟩]⟩
        "s2" "newloc" true).states.head?.map (fun st => st.UnbindingMdibVersion)) =
      some (some 5) ∧
    ((set_location ⟨5, [⟨"s1", ContextAssoc.associated, some 3, none, "old"⟩]⟩
        "s2" "newloc" true).states.head?.map (fun st => st.UnbindingMdibVersion)) ≠
      some (some (set_location ⟨5, [⟨"s1", ContextAssoc.associated, some 3, none, "old"⟩]⟩
        "s2" "newloc" true).mdib_version) := by
  refine ⟨rfl, rfl, ?_⟩
  decide

/-- Claim C5, amended: after `set_location` (with `set_associated = True`)
commits at mdib version `N = old + 1`, exactly one context state of the
descriptor is `Associated`; every previously associated state is
`Disassociated` with `UnbindingMdibVersion = N - 1` (the pre-commit mdib
version read inside the transaction body), and the new state (the last one)
is `Associated` with `BindingMdibVersion = N`, all in the same commit. -/
theorem c5_context_association_amended (m : ProviderContextMdib)
    (new_handle loc : String) (st : LocationContextState)
    (h_mem : st ∈ m.states)
    (h_assoc : st.ContextAssociation = ContextAssoc.associated) :
    (set_location m new_handle loc true).mdib_version = m.mdib_version + 1 ∧
    count_associated (set_location m new_handle loc true).states = 1 ∧
    ({ st with ContextAssociation := ContextAssoc.disassociated,
               UnbindingMdibVersion := some m.mdib_version }
        ∈ (set_location m new_handle loc true).states) ∧
    (set_location m new_handle loc true).states.getLast? =
      some (mk_context_state new_handle loc true (m.mdib_version + 1)) ∧
    (mk_context_state new_handle loc true (m.mdib_version + 1)).ContextAssociation =
      ContextAssoc.associated ∧
    (mk_context_state new_handle loc true (m.mdib_version + 1)).BindingMdibVersion =
      some (m.mdib_version + 1) := by
  refine ⟨rfl, ?_, ?_, ?_, rfl, rfl⟩
  · simp only [set_location, count_associated, List.filter_append, List.length_append]
    have h0 := count_associated_map_disassociate m.states m.mdib_version
    simp only [count_associated] at h0
    simp [h0, mk_context_state]
  · simp only [set_location]
    refine List.mem_append_left _ ?_
    have := List.mem_map_of_mem (fun st =>
      if st.ContextAssociation = ContextAssoc.associated then
        { st with ContextAssociation := ContextAssoc.disassociated,
                  UnbindingMdibVersion := some m.mdib_version }
      else st) h_mem
    simpa [h_assoc] using this
  · simp [set_location]

/-- Claim C5 amended, witness: one associated state at mdib version 5. -/
theorem c5_context_association_amended_witness :
    ((⟨"s1", ContextAssoc.associated, some 3, none, "old"⟩ : LocationContextState) ∈
        (⟨5, [⟨"s1", ContextAssoc.associated, some 3, none, "old"⟩]⟩ :
          ProviderContextMdib).states) ∧
    ((⟨"s1", ContextAssoc.associated, some 3, none, "old"⟩ :
        LocationContextState).ContextAssociation = ContextAssoc.associated) ∧
    ((set_location ⟨5, [⟨"s1", ContextAssoc.associated, some 3, none, "old"⟩]⟩
        "s2" "newloc" true).mdib_version = 5 + 1 ∧
     count_associated (set_location ⟨5, [⟨"s1", ContextAssoc.associated, some 3, none, "old"⟩]⟩
        "s2" "newloc" true).states = 1 ∧
     (⟨"s1", ContextAssoc.disassociated, some 3, some 5, "old"⟩ ∈
        (set_location ⟨5, [⟨"s1", ContextAssoc.associated, some 3, none, "old"⟩]⟩
          "s2" "newloc" true).states) ∧
     (set_location ⟨5, [⟨"s1", ContextAssoc.associated, some 3, none, "old"⟩]⟩
        "s2" "newloc" true).states.getLast? =
       some (mk_context_state "s2" "newloc" true (5 + 1)) ∧
     (mk_context_state "s2" "newloc" true (5 + 1)).ContextAssociation =
       ContextAssoc.associated ∧
     (mk_context_state "s2" "newloc" true (5 + 1)).BindingMdibVersion = some (5 + 1)) :=
  ⟨by decide, by decide,
   c5_context_association_amended ⟨5, [⟨"s1", ContextAssoc.associated, some 3, none, "old"⟩]⟩
     "s2" "newloc" ⟨"s1", ContextAssoc.associated, some 3, none, "old"⟩
     (by decide) (by decide)⟩

/- ------------------------------------------------------------------
Claim C8
------------------------------------------------------------------- -/

/-- Claim C8, counterexample: netloc "a" has callbacks registered for two
eprs; after `report_unreachable_epr "a" "e1"` the entry for "a" survives
(epr "e2" is still registered), and a subsequent `get_soap_client "a"`
succeeds — the claim asserts every subsequent get fails. -/
theorem c8_get_after_unreachable_epr_counterexample :
    ((report_unreachable_epr [("a", ⟨some 1, [("e1", [10]), ("e2", [20])]⟩)] "a" "e1").bind
      (fun r => get_soap_client r.1 "a" 99)).isSome = true := by
  decide

/-- Claim C8, amended: after `report_unreachable_netloc netloc` every
subsequent `get_soap_client netloc` fails until `register_netloc_user` is
called again for the netloc (after which it succeeds); after
`report_unreachable_epr netloc epr`, `get_soap_client netloc` fails exactly
when no callbacks for other eprs of the netloc remained (the entry was
dropped), and still succeeds otherwise. -/
theorem c8_pool_unreachable_amended (pool pool_n pool_e pool_r : List (String × PoolEntry))
    (entry : PoolEntry) (netloc epr : String) (cb fresh : Nat) (cbs_n cbs_e : List Nat)
    (h_entry : assoc_lookup pool netloc = some entry)
    (h_n : report_unreachable_netloc pool netloc = some (pool_n, cbs_n))
    (h_e : report_unreachable_epr pool netloc epr = some (pool_e, cbs_e))
    (h_r : register_netloc_user pool_n netloc epr cb = some pool_r) :
    get_soap_client pool_n netloc fresh = none ∧
    ((entry_forget_epr entry epr).1.callbacks.isEmpty = true →
      get_soap_client pool_e netloc fresh = none) ∧
    ((entry_forget_epr entry epr).1.callbacks.isEmpty = false →
      (get_soap_client pool_e netloc fresh).isSome = true) ∧
    (get_soap_client pool_r netloc fresh).isSome = true := by
  have h_pool_n : pool_n = assoc_remove pool netloc := by
    simp only [report_unreachable_netloc, h_entry, Option.some.injEq, Prod.mk.injEq] at h_n
    exact h_n.1.symm
  have h_n_none : assoc_lookup pool_n netloc = none := by
    rw [h_pool_n]; exact assoc_lookup_remove_self pool netloc
  refine ⟨?_, ?_, ?_, ?_⟩
  · simp [get_soap_client, h_n_none]
  · intro h0
    simp only [report_unreachable_epr, h_entry, h0, if_pos, Option.some.injEq,
      Prod.mk.injEq] at h_e
    have h_pool_e : pool_e = assoc_remove pool netloc := h_e.1.symm
    have : assoc_lookup pool_e netloc = none := by
      rw [h_pool_e]; exact assoc_lookup_remove_self pool netloc
    simp [get_soap_client, this]
  · intro h0
    simp only [report_unreachable_epr, h_entry, h0] at h_e
    have h_pool_e : pool_e = assoc_set pool netloc (entry_forget_epr entry epr).1 := by
      simp at h_e; exact h_e.1.symm
    have hlook : assoc_lookup pool_e netloc = some (entry_forget_epr entry epr).1 := by
      rw [h_pool_e, assoc_lookup_set_self, h_entry]; rfl
    cases hc : (entry_forget_epr entry epr).1.soap_client with
    | none => simp [get_soap_client, hlook, hc]
    | some c => simp [get_soap_client, hlook, hc]
  · simp only [register_netloc_user, h_n_none] at h_r
    have h_pool_r : pool_r = pool_n ++ [(netloc, ⟨none, [(epr, [cb])]⟩)] := by
      cases h_r; rfl
    have hlook : assoc_lookup pool_r netloc = some ⟨none, [(epr, [cb])]⟩ := by
      rw [h_pool_r, assoc_lookup_append_of_none _ _ _ h_n_none]
      simp [assoc_lookup]
    simp [get_soap_client, hlook]

/-- Claim C8 amended, witness: pool with callbacks for eprs "e1" and "e2" on
netloc "a". -/
theorem c8_pool_unreachable_amended_witness :
    (report_unreachable_netloc [("a", ⟨some 1, [("e1", [10]), ("e2", [20])]⟩)] "a" =
        some ([], [10, 20])) ∧
    (report_unreachable_epr [("a", ⟨some 1, [("e1", [10]), ("e2", [20])]⟩)] "a" "e1" =
        some ([("a", ⟨some 1, [("e2", [20])]⟩)], [10])) ∧
    (register_netloc_user [] "a" "e1" 30 = some [("a", ⟨none, [("e1", [30])]⟩)]) ∧
    (get_soap_client [] "a" 99 = none ∧
     ((entry_forget_epr ⟨some 1, [("e1", [10]), ("e2", [20])]⟩ "e1").1.callbacks.isEmpty = true →
       get_soap_client [("a", ⟨some 1, [("e2", [20])]⟩)] "a" 99 = none) ∧
     ((entry_forget_epr ⟨some 1, [("e1", [10]), ("e2", [20])]⟩ "e1").1.callbacks.isEmpty = false →
       (get_soap_client [("a", ⟨some 1, [("e2", [20])]⟩)] "a" 99).isSome = true) ∧
     (get_soap_client [("a", ⟨none, [("e1", [30])]⟩)] "a" 99).isSome = true) :=
  ⟨by decide, by decide, by decide,
   c8_pool_unreachable_amended [("a", ⟨some 1, [("e1", [10]), ("e2", [20])]⟩)]
     [] [("a", ⟨some 1, [("e2", [20])]⟩)] [("a", ⟨none, [("e1", [30])]⟩)]
     ⟨some 1, [("e1", [10]), ("e2", [20])]⟩
     "a" "e1" 30 99 [10, 20] [10]
     (by decide) (by decide) (by decide) (by decide)⟩

/- ------------------------------------------------------------------
Claim C9
------------------------------------------------------------------- -/

/-- Claim C9, counterexample: the metric queue holds an entry stored at mdib
version 5, the mdib is now at version 9 with metric handle "m" whose current
state is 7, registered for period 1000 ms.  The retrievability-driven tick
leaves the queue untouched (it is not taken and cleared) and sends a report
part tagged with the current version 9, not with the queued entry's
version 5 — contradicting the claim. -/
theorem c9_retrievability_tick_counterexample :
    (periodic_reports_tick ⟨[⟨5, [1]⟩], [], [], [], []⟩
        ⟨9, "s", [("m", DescrKind.metric)], [("m", 7)], [], [(1000, ["m"])]⟩ 1000).map
      (fun r => (r.1.metric_reports, r.2.metric)) =
      some ([⟨5, [1]⟩], some [⟨9, [7]⟩]) ∧
    ([⟨5, [1]⟩] : List PeriodicStatesEntry) ≠ [] := by
  constructor
  · rfl
  · decide

/-- Claim C9, amended: the take-and-clear behaviour with entry boundaries and
original mdib versions belongs to the fixed-interval simple loop: one of its
ticks empties all five queues and, per family, sends exactly the queued
entries when the queue was non-empty (and nothing otherwise).  The
retrievability-driven tick for a period leaves the queues untouched and, per
non-empty family, sends a single report part that carries the current states
of the period's handles tagged with the current mdib version. -/
theorem c9_periodic_loops_amended (q q2 : PeriodicQueues) (mdib : PMdib)
    (period_ms : Nat) (r : PeriodicQueues × PeriodicSends)
    (h : periodic_reports_tick q2 mdib period_ms = some r) :
    (simple_periodic_tick q).1 = ⟨[], [], [], [], []⟩ ∧
    (simple_periodic_tick q).2 =
      ⟨if q.metric_reports.isEmpty then none else some q.metric_reports,
       if q.alert_reports.isEmpty then none else some q.alert_reports,
       if q.component_state_reports.isEmpty then none else some q.component_state_reports,
       if q.context_state_reports.isEmpty then none else some q.context_state_reports,
       if q.operational_state_reports.isEmpty then none else some q.operational_state_reports⟩ ∧
    r.1 = q2 ∧
    ((r.2.metric.getD []).length ≤ 1 ∧
     (r.2.metric.getD []).all (fun e => decide (e.mdib_version = mdib.mdib_version)) = true) ∧
    ((r.2.alert.getD []).length ≤ 1 ∧
     (r.2.alert.getD []).all (fun e => decide (e.mdib_version = mdib.mdib_version)) = true) ∧
    ((r.2.component.getD []).length ≤ 1 ∧
     (r.2.component.getD []).all (fun e => decide (e.mdib_version = mdib.mdib_version)) = true) ∧
    ((r.2.context.getD []).length ≤ 1 ∧
     (r.2.context.getD []).all (fun e => decide (e.mdib_version = mdib.mdib_version)) = true) ∧
    ((r.2.operational.getD []).length ≤ 1 ∧
     (r.2.operational.getD []).all (fun e => decide (e.mdib_version = mdib.mdib_version)) = true) := by
  refine ⟨?_, ?_, ?_⟩
  · have hq : ∀ l : List PeriodicStatesEntry, (take_and_clear l).2 = [] := by
      intro l
      simp only [take_and_clear]
      split_ifs with h0
      · simpa [List.isEmpty_iff] using h0
      · rfl
    simp [simple_periodic_tick, hq]
  · simp only [simple_periodic_tick, take_and_clear]
    split_ifs <;> rfl
  · simp only [periodic_reports_tick] at h
    split at h
    · exact absurd h (by simp)
    · rename_i metrics components alerts operationals contexts heq
      split at h
      · rename_i metric_states component_states alert_states operational_states hm hc ha ho
        simp only [Option.some.injEq] at h
        subst h
        refine ⟨rfl, ?_, ?_, ?_, ?_, ?_⟩ <;>
          · constructor <;>
              · simp only []
                split_ifs with he <;> simp
      · exact absurd h (by simp)

/-- Claim C9 amended, witness: metric queue with one entry stored at version
5, mdib at version 9 with one metric handle registered for 1000 ms. -/
theorem c9_periodic_loops_amended_witness :
    (periodic_reports_tick ⟨[⟨5, [1]⟩], [], [], [], []⟩
        ⟨9, "s", [("m", DescrKind.metric)], [("m", 7)], [], [(1000, ["m"])]⟩ 1000 =
      some (⟨[⟨5, [1]⟩], [], [], [], []⟩, ⟨some [⟨9, [7]⟩], none, none, none, none⟩)) ∧
    ((simple_periodic_tick ⟨[⟨5, [1]⟩], [], [], [], []⟩).1 = ⟨[], [], [], [], []⟩ ∧
     (simple_periodic_tick ⟨[⟨5, [1]⟩], [], [], [], []⟩).2 =
       ⟨if ([⟨5, [1]⟩] : List PeriodicStatesEntry).isEmpty then none else some [⟨5, [1]⟩],
        if ([] : List PeriodicStatesEntry).isEmpty then none else some [],
        if ([] : List PeriodicStatesEntry).isEmpty then none else some [],
        if ([] : List PeriodicStatesEntry).isEmpty then none else some [],
        if ([] : List PeriodicStatesEntry).isEmpty then none else some []⟩ ∧
     ((⟨[⟨5, [1]⟩], [], [], [], []⟩, ⟨some [⟨9, [7]⟩], none, none, none, none⟩) :
        PeriodicQueues × PeriodicSends).1 = ⟨[⟨5, [1]⟩], [], [], [], []⟩ ∧
     ((((⟨[⟨5, [1]⟩], [], [], [], []⟩, ⟨some [⟨9, [7]⟩], none, none, none, none⟩) :
        PeriodicQueues × PeriodicSends).2.metric.getD []).length ≤ 1 ∧
      (((⟨[⟨5, [1]⟩], [], [], [], []⟩, ⟨some [⟨9, [7]⟩], none, none, none, none⟩) :
        PeriodicQueues × PeriodicSends).2.metric.getD []).all
          (fun e => decide (e.mdib_version = 9)) = true) ∧
     ((((⟨[⟨5, [1]⟩], [], [], [], []⟩, ⟨some [⟨9, [7]⟩], none, none, none, none⟩) :
        PeriodicQueues × PeriodicSends).2.alert.getD []).length ≤ 1 ∧
      (((⟨[⟨5, [1]⟩], [], [], [], []⟩, ⟨some [⟨9, [7]⟩], none, none, none, none⟩) :
        PeriodicQueues × PeriodicSends).2.alert.getD []).all
          (fun e => decide (e.mdib_version = 9)) = true) ∧
     ((((⟨[⟨5, [1]⟩], [], [], [], []⟩, ⟨some [⟨9, [7]⟩], none, none, none, none⟩) :
        PeriodicQueues × PeriodicSends).2.component.getD []).length ≤ 1 ∧
      (((⟨[⟨5, [1]⟩], [], [], [], []⟩, ⟨some [⟨9, [7]⟩], none, none, none, none⟩) :
        PeriodicQueues × PeriodicSends).2.component.getD []).all
          (fun e => decide (e.mdib_version = 9)) = true) ∧
     ((((⟨[⟨5, [1]⟩], [], [], [], []⟩, ⟨some [⟨9, [7]⟩], none, none, none, none⟩) :
        PeriodicQueues × PeriodicSends).2.context.getD []).length ≤ 1 ∧
      (((⟨[⟨5, [1]⟩], [], [], [], []⟩, ⟨some [⟨9, [7]⟩], none, none, none, none⟩) :
        PeriodicQueues × PeriodicSends).2.context.getD []).all
          (fun e => decide (e.mdib_version = 9)) = true) ∧
     ((((⟨[⟨5, [1]⟩], [], [], [], []⟩, ⟨some [⟨9, [7]⟩], none, none, none, none⟩) :
        PeriodicQueues × PeriodicSends).2.operational.getD []).length ≤ 1 ∧
      (((⟨[⟨5, [1]⟩], [], [], [], []⟩, ⟨some [⟨9, [7]⟩], none, none, none, none⟩) :
        PeriodicQueues × PeriodicSends).2.operational.getD []).all
          (fun e => decide (e.mdib_version = 9)) = true)) :=
  ⟨by rfl,
   c9_periodic_loops_amended ⟨[⟨5, [1]⟩], [], [], [], []⟩ ⟨[⟨5, [1]⟩], [], [], [], []⟩
     ⟨9, "s", [("m", DescrKind.metric)], [("m", 7)], [], [(1000, ["m"])]⟩ 1000
     (⟨[⟨5, [1]⟩], [], [], [], []⟩, ⟨some [⟨9, [7]⟩], none, none, none, none⟩)
     (by rfl)⟩

/- ------------------------------------------------------------------
Claim C1
------------------------------------------------------------------- -/

/-- Claim C1, counterexample: consumer at mdib version 7, sequence id "A",
flag not set.  A report with sequence id "B" and mdib version 1 is dropped,
but the sequence-changed flag is NOT set: the mdib-version gate rejects the
report before the sequence id is even looked at — contradicting the claim's
"regardless of the report's mdib_version". -/
theorem c1_old_version_skips_sequence_flag_counterexample :
    (can_accept_version ⟨7, "A", none, false, false, true, true, []⟩ (some 1) "B").2 = false ∧
    (can_accept_version ⟨7, "A", none, false, false, true, true, []⟩
        (some 1) "B").1.seq_changed_flag = false := by
  decide

/-- Claim C1, amended: a report whose sequence id differs sets the
sequence-changed flag, overwrites the stored sequence id and is dropped, but
only when the report first passes the mdib-version gate; a report rejected by
the version gate is dropped without touching the flag.  Once the flag is set,
every report is refused, and `reload_all` resets the flag. -/
theorem c1_sequence_id_change_amended (m m2 m3 : CMdib) (new_v v2 : Option Nat)
    (sid sid2 : String) (resp : GetMdibResponse)
    (h_gate : (can_accept_mdib_version m.check_disabled m.all_subscribed
        m.mdib_version new_v).1 = true)
    (h_sid : sid ≠ m.sequence_id)
    (h_flag : m2.seq_changed_flag = true) :
    can_accept_version m new_v sid =
      ({ m with seq_changed_flag := true, sequence_id := sid }, false) ∧
    (can_accept_version m2 v2 sid2).2 = false ∧
    (reload_all m3 resp).seq_changed_flag = false := by
  have hne : m.sequence_id ≠ sid := fun hc => h_sid hc.symm
  refine ⟨?_, ?_, rfl⟩
  · simp [can_accept_version, h_gate, sequence_id_changed, hne]
  · simp only [can_accept_version, sequence_id_changed]
    split_ifs <;> simp_all

/-- Claim C1 amended, witness: a report at the current mdib version with a
new sequence id, a consumer whose flag is already set, and a reload. -/
theorem c1_sequence_id_change_amended_witness :
    ((can_accept_mdib_version
        (⟨7, "A", none, false, false, true, true, []⟩ : CMdib).check_disabled
        (⟨7, "A", none, false, false, true, true, []⟩ : CMdib).all_subscribed
        (⟨7, "A", none, false, false, true, true, []⟩ : CMdib).mdib_version (some 7)).1 = true) ∧
    ("B" ≠ (⟨7, "A", none, false, false, true, true, []⟩ : CMdib).sequence_id) ∧
    ((⟨7, "B", none, true, false, true, true, []⟩ : CMdib).seq_changed_flag = true) ∧
    (can_accept_version ⟨7, "A", none, false, false, true, true, []⟩ (some 7) "B" =
       (⟨7, "B", none, true, false, true, true, []⟩, false) ∧
     (can_accept_version ⟨7, "B", none, true, false, true, true, []⟩ (some 8) "B").2 = false ∧
     (reload_all ⟨7, "B", none, true, false, true, true, []⟩
        ⟨["h"], [], some 0, "C", none⟩).seq_changed_flag = false) :=
  ⟨by decide, by decide, by decide,
   c1_sequence_id_change_amended ⟨7, "A", none, false, false, true, true, []⟩
     ⟨7, "B", none, true, false, true, true, []⟩ ⟨7, "B", none, true, false, true, true, []⟩
     (some 7) (some 8) "B" "B" ⟨["h"], [], some 0, "C", none⟩
     (by decide) (by decide) (by decide)⟩

/- ------------------------------------------------------------------
Claim C3
------------------------------------------------------------------- -/

/-- Claim C3: `MAX_NOTIFY_ERRORS` is 1; a successful notification POST to a
valid subscription resets `notify_errors` to 0; a subscription whose
`notify_errors` reached `MAX_NOTIFY_ERRORS` is invalid and is not in the
table after a housekeeping run; and after a fan-out (which ends with a
housekeeping run) every subscription remaining in the table is valid. -/
theorem c3_notify_errors_housekeeping (s t u : Subscription)
    (subs : List Subscription) (now : ℚ) (action : String)
    (outcome : Subscription → DeliveryOutcome)
    (h_valid : is_valid s now = true)
    (h_err : MAX_NOTIFY_ERRORS ≤ t.notify_errors)
    (_h_mem : t ∈ subs)
    (h_u : u ∈ (send_to_subscribers subs now action outcome).1) :
    MAX_NOTIFY_ERRORS = 1 ∧
    (send_notification_report s now DeliveryOutcome.success).notify_errors = 0 ∧
    is_valid t now = false ∧
    t ∉ (do_housekeeping subs now).1 ∧
    is_valid u now = true := by
  have h_t_inv : is_valid t now = false := by
    simp only [is_valid, has_delivery_failure]
    split_ifs with hc
    · rfl
    · simp [decide_eq_true h_err]
  refine ⟨rfl, ?_, h_t_inv, ?_, ?_⟩
  · simp [send_notification_report, h_valid]
  · intro h_in
    simp only [do_housekeeping] at h_in
    have h1 := List.mem_filter.mp (List.mem_filter.mp h_in).1
    rw [h_t_inv] at h1
    simp at h1
  · simp only [send_to_subscribers, do_housekeeping] at h_u
    exact (List.mem_filter.mp (List.mem_filter.mp h_u).1).2

/-- Claim C3, witness: a table with one valid and one delivery-failed
subscription at `now = 0`. -/
theorem c3_notify_errors_housekeeping_witness :
    (is_valid ⟨"a", some "a", 60, 0, 7200, 0, false, false, []⟩ 0 = true) ∧
    (MAX_NOTIFY_ERRORS ≤
      (⟨"b", some "b", 60, 0, 7200, 1, false, false, []⟩ : Subscription).notify_errors) ∧
    ((⟨"b", some "b", 60, 0, 7200, 1, false, false, []⟩ : Subscription) ∈
      [(⟨"b", some "b", 60, 0, 7200, 1, false, false, []⟩ : Subscription),
       ⟨"a", some "a", 60, 0, 7200, 0, false, false, []⟩]) ∧
    ((⟨"a", some "a", 60, 0, 7200, 0, false, false, []⟩ : Subscription) ∈
      (send_to_subscribers
        [⟨"b", some "b", 60, 0, 7200, 1, false, false, []⟩,
         ⟨"a", some "a", 60, 0, 7200, 0, false, false, []⟩] 0 "act"
        (fun _ => DeliveryOutcome.success)).1) ∧
    (MAX_NOTIFY_ERRORS = 1 ∧
     (send_notification_report ⟨"a", some "a", 60, 0, 7200, 0, false, false, []⟩ 0
        DeliveryOutcome.success).notify_errors = 0 ∧
     is_valid ⟨"b", some "b", 60, 0, 7200, 1, false, false, []⟩ 0 = false ∧
     (⟨"b", some "b", 60, 0, 7200, 1, false, false, []⟩ : Subscription) ∉
       (do_housekeeping
         [⟨"b", some "b", 60, 0, 7200, 1, false, false, []⟩,
          ⟨"a", some "a", 60, 0, 7200, 0, false, false, []⟩] 0).1 ∧
     is_valid ⟨"a", some "a", 60, 0, 7200, 0, false, false, []⟩ 0 = true) :=
  ⟨by norm_num [is_valid, remaining_seconds, py_int, has_delivery_failure, MAX_NOTIFY_ERRORS],
   by decide, by decide,
   by norm_num [send_to_subscribers, do_housekeeping, subscription_matches,
     is_valid, remaining_seconds, py_int, has_delivery_failure, MAX_NOTIFY_ERRORS],
   c3_notify_errors_housekeeping
     ⟨"a", some "a", 60, 0, 7200, 0, false, false, []⟩
     ⟨"b", some "b", 60, 0, 7200, 1, false, false, []⟩
     ⟨"a", some "a", 60, 0, 7200, 0, false, false, []⟩
     [⟨"b", some "b", 60, 0, 7200, 1, false, false, []⟩,
      ⟨"a", some "a", 60, 0, 7200, 0, false, false, []⟩] 0 "act"
     (fun _ => DeliveryOutcome.success)
     (by norm_num [is_valid, remaining_seconds, py_int, has_delivery_failure, MAX_NOTIFY_ERRORS])
     (by decide) (by decide)
     (by norm_num [send_to_subscribers, do_housekeeping, subscription_matches,
        is_valid, remaining_seconds, py_int, has_delivery_failure, MAX_NOTIFY_ERRORS])⟩

/- ------------------------------------------------------------------
Claim C4
------------------------------------------------------------------- -/

/-- Claim C4: if subscription `s` is invalid with its connection-error flag
set (the outcome of a failed delivery), then one housekeeping pass removes
`s` and every other subscription `t` on the same netloc (given the invariant
from `on_subscribe_request` that the assigned soap client's netloc is the
`notify_to` netloc); the netloc ends up in `unreachable_netlocs`; and the
pool interaction for that netloc first forgets it (closing the transport,
since the manager is the only user reference) and then reports it
unreachable, leaving the pool without the netloc. -/
theorem c4_connection_error_cascade (subs : List Subscription) (now : ℚ)
    (s t : Subscription) (n : String) (pool : List (String × MgrPoolEntry))
    (entry : MgrPoolEntry) (mgr : Nat)
    (h_s_mem : s ∈ subs)
    (h_conn : s.is_connection_error = true)
    (h_invalid : is_valid s now = false)
    (h_s_netloc : s.soap_client_netloc = some n)
    (h_t_netloc : t.notify_to_netloc = n)
    (h_t_client : t.soap_client_netloc = some t.notify_to_netloc)
    (h_unreach : (do_housekeeping subs now).2 = [n])
    (h_pool : assoc_lookup pool n = some entry)
    (h_refs : entry.user_refs = [mgr]) :
    s ∉ (do_housekeeping subs now).1 ∧
    t ∉ (do_housekeeping subs now).1 ∧
    n ∈ (do_housekeeping subs now).2 ∧
    mgr_pool_forget pool n mgr = some (assoc_remove pool n, true) ∧
    pool_forget_and_report mgr pool (do_housekeeping subs now).2 =
      some (assoc_remove pool n) ∧
    assoc_lookup (assoc_remove pool n) n = none := by
  have h_n_unreach : n ∈ (do_housekeeping subs now).2 := by
    simp only [do_housekeeping]
    refine List.mem_filterMap.mpr ⟨s, ?_, h_s_netloc⟩
    refine List.mem_filter.mpr ⟨List.mem_filter.mpr ⟨h_s_mem, ?_⟩, h_conn⟩
    simp [h_invalid]
  have h_forget : mgr_pool_forget pool n mgr = some (assoc_remove pool n, true) := by
    simp [mgr_pool_forget, h_pool, h_refs]
  refine ⟨?_, ?_, h_n_unreach, h_forget, ?_, assoc_lookup_remove_self pool n⟩
  · intro h_in
    simp only [do_housekeeping] at h_in
    have h1 := List.mem_filter.mp (List.mem_filter.mp h_in).1
    rw [h_invalid] at h1
    simp at h1
  · intro h_in
    simp only [do_housekeeping] at h_in h_unreach
    have h2 := (List.mem_filter.mp h_in).2
    simp only [h_t_client, h_t_netloc, h_unreach] at h2
    simp at h2
  · rw [h_unreach]
    simp only [pool_forget_and_report, h_forget]
    simp [mgr_pool_report_unreachable, assoc_lookup_remove_self, pool_forget_and_report]

/-- Claim C4, witness: subscriptions `s` (connection-errored) and `t` on
netloc "a", a third one on "b", the pool holding both netlocs with the
manager (77) as only user. -/
theorem c4_connection_error_cascade_witness :
    ((⟨"a", some "a", 60, 0, 7200, 1, false, true, []⟩ : Subscription) ∈
      [(⟨"a", some "a", 60, 0, 7200, 1, false, true, []⟩ : Subscription),
       ⟨"a", some "a", 60, 0, 7200, 0, false, false, []⟩,
       ⟨"b", some "b", 60, 0, 7200, 0, false, false, []⟩]) ∧
    ((⟨"a", some "a", 60, 0, 7200, 1, false, true, []⟩ : Subscription).is_connection_error = true) ∧
    (is_valid ⟨"a", some "a", 60, 0, 7200, 1, false, true, []⟩ 0 = false) ∧
    ((⟨"a", some "a", 60, 0, 7200, 1, false, true, []⟩ : Subscription).soap_client_netloc = some "a") ∧
    ((⟨"a", some "a", 60, 0, 7200, 0, false, false, []⟩ : Subscription).notify_to_netloc = "a") ∧
    ((⟨"a", some "a", 60, 0, 7200, 0, false, false, []⟩ : Subscription).soap_client_netloc =
      some (⟨"a", some "a", 60, 0, 7200, 0, false, false, []⟩ : Subscription).notify_to_netloc) ∧
    ((do_housekeeping
        [⟨"a", some "a", 60, 0, 7200, 1, false, true, []⟩,
         ⟨"a", some "a", 60, 0, 7200, 0, false, false, []⟩,
         ⟨"b", some "b", 60, 0, 7200, 0, false, false, []⟩] 0).2 = ["a"]) ∧
    (assoc_lookup [("a", (⟨true, [77]⟩ : MgrPoolEntry)), ("b", ⟨true, [77]⟩)] "a" =
      some ⟨true, [77]⟩) ∧
    ((⟨true, [77]⟩ : MgrPoolEntry).user_refs = [77]) ∧
    ((⟨"a", some "a", 60, 0, 7200, 1, false, true, []⟩ : Subscription) ∉
       (do_housekeeping
         [⟨"a", some "a", 60, 0, 7200, 1, false, true, []⟩,
          ⟨"a", some "a", 60, 0, 7200, 0, false, false, []⟩,
          ⟨"b", some "b", 60, 0, 7200, 0, false, false, []⟩] 0).1 ∧
     (⟨"a", some "a", 60, 0, 7200, 0, false, false, []⟩ : Subscription) ∉
       (do_housekeeping
         [⟨"a", some "a", 60, 0, 7200, 1, false, true, []⟩,
          ⟨"a", some "a", 60, 0, 7200, 0, false, false, []⟩,
          ⟨"b", some "b", 60, 0, 7200, 0, false, false, []⟩] 0).1 ∧
     "a" ∈
       (do_housekeeping
         [⟨"a", some "a", 60, 0, 7200, 1, false, true, []⟩,
          ⟨"a", some "a", 60, 0, 7200, 0, false, false, []⟩,
          ⟨"b", some "b", 60, 0, 7200, 0, false, false, []⟩] 0).2 ∧
     mgr_pool_forget [("a", (⟨true, [77]⟩ : MgrPoolEntry)), ("b", ⟨true, [77]⟩)] "a" 77 =
       some (assoc_remove [("a", (⟨true, [77]⟩ : MgrPoolEntry)), ("b", ⟨true, [77]⟩)] "a", true) ∧
     pool_forget_and_report 77 [("a", (⟨true, [77]⟩ : MgrPoolEntry)), ("b", ⟨true, [77]⟩)]
       (do_housekeeping
         [⟨"a", some "a", 60, 0, 7200, 1, false, true, []⟩,
          ⟨"a", some "a", 60, 0, 7200, 0, false, false, []⟩,
          ⟨"b", some "b", 60, 0, 7200, 0, false, false, []⟩] 0).2 =
       some (assoc_remove [("a", (⟨true, [77]⟩ : MgrPoolEntry)), ("b", ⟨true, [77]⟩)] "a") ∧
     assoc_lookup (assoc_remove [("a", (⟨true, [77]⟩ : MgrPoolEntry)), ("b", ⟨true, [77]⟩)] "a") "a" =
       none) :=
  ⟨by decide, by decide,
   by norm_num [is_valid, remaining_seconds, py_int, has_delivery_failure, MAX_NOTIFY_ERRORS],
   by decide, by decide, by decide,
   by norm_num [do_housekeeping, is_valid, remaining_seconds, py_int,
     has_delivery_failure, MAX_NOTIFY_ERRORS] <;> decide,
   by decide, by decide,
   c4_connection_error_cascade
     [⟨"a", some "a", 60, 0, 7200, 1, false, true, []⟩,
      ⟨"a", some "a", 60, 0, 7200, 0, false, false, []⟩,
      ⟨"b", some "b", 60, 0, 7200, 0, false, false, []⟩] 0
     ⟨"a", some "a", 60, 0, 7200, 1, false, true, []⟩
     ⟨"a", some "a", 60, 0, 7200, 0, false, false, []⟩ "a"
     [("a", ⟨true, [77]⟩), ("b", ⟨true, [77]⟩)] ⟨true, [77]⟩ 77
     (by decide) (by decide)
     (by norm_num [is_valid, remaining_seconds, py_int, has_delivery_failure, MAX_NOTIFY_ERRORS])
     (by decide) (by decide) (by decide)
     (by norm_num [do_housekeeping, is_valid, remaining_seconds, py_int,
        has_delivery_failure, MAX_NOTIFY_ERRORS] <;> decide)
     (by decide) (by decide)⟩

/- ------------------------------------------------------------------
Claim C7: lemmas about state application
------------------------------------------------------------------- -/

theorem lookup_set_entity_self (e : List (String × Option AbstractState))
    (h : String) (st : AbstractState) :
    lookup_entity (set_entity_state e h st) h =
      (lookup_entity e h).map (fun _ => some st) := by
  induction e with
  | nil => rfl
  | cons p rest ih =>
    by_cases hp : p.1 = h <;> simp [set_entity_state, lookup_entity, hp, ih]

theorem lookup_set_entity_other (e : List (String × Option AbstractState))
    (h k : String) (st : AbstractState) (hne : k ≠ h) :
    lookup_entity (set_entity_state e h st) k = lookup_entity e k := by
  induction e with
  | nil => rfl
  | cons p rest ih =>
    by_cases hp : p.1 = h
    · have hpk : ¬(p.1 = k) := by rw [hp]; exact fun hc => hne hc.symm
      simp only [set_entity_state, if_pos hp, lookup_entity, if_neg hpk]
      exact ih
    · simp only [set_entity_state, if_neg hp, lookup_entity]
      by_cases hpk : p.1 = k
      · rw [if_pos hpk, if_pos hpk]
      · rw [if_neg hpk, if_neg hpk]; exact ih

theorem has_new_state_accept_iff (o n : Nat) (d b : Bool) :
    (has_new_state_usable_state_version o n d b).1 = decide (o < n) := by
  simp only [has_new_state_usable_state_version]
  by_cases h1 : (n : Int) - (o : Int) = 1
  · rw [if_pos h1]; exact (decide_eq_true (by omega)).symm
  · rw [if_neg h1]
    by_cases h2 : (1 : Int) < (n : Int) - (o : Int)
    · rw [if_pos h2]; exact (decide_eq_true (by omega)).symm
    · rw [if_neg h2]
      by_cases h3 : (n : Int) - (o : Int) < 0
      · rw [if_pos h3]; exact (decide_eq_false (by omega)).symm
      · rw [if_neg h3]; exact (decide_eq_false (by omega)).symm

theorem apply_entry_isSome (e e1 : List (String × Option AbstractState))
    (b : Bool) (s : ReportState)
    (h : apply_state_report_entry e b s = some e1) (k : String) :
    (lookup_entity e1 k).isSome = (lookup_entity e k).isSome := by
  have hset : ∀ st : AbstractState,
      (lookup_entity (set_entity_state e s.descriptor_handle st) k).isSome =
        (lookup_entity e k).isSome := by
    intro st
    by_cases hk : k = s.descriptor_handle
    · subst hk
      rw [lookup_set_entity_self]
      cases lookup_entity e s.descriptor_handle <;> rfl
    · rw [lookup_set_entity_other e _ _ _ hk]
  simp only [apply_state_report_entry] at h
  split at h
  · exact absurd h (by simp)
  · split_ifs at h with hacc
    · injection h with he1; rw [← he1]; exact hset _
    · injection h with he1; rw [← he1]
  · injection h with he1; rw [← he1]; exact hset _

theorem apply_entry_mono (e e1 : List (String × Option AbstractState))
    (b : Bool) (s : ReportState)
    (h : apply_state_report_entry e b s = some e1) (k : String) (st : AbstractState)
    (hk : lookup_entity e k = some (some st)) :
    ∃ st1, lookup_entity e1 k = some (some st1) ∧
      st.StateVersion ≤ st1.StateVersion := by
  simp only [apply_state_report_entry] at h
  split at h
  · exact absurd h (by simp)
  · rename_i old hl
    rw [has_new_state_accept_iff] at h
    by_cases hacc : old.StateVersion < s.StateVersion
    · rw [decide_eq_true hacc, if_pos rfl] at h
      injection h with he1
      by_cases hkk : k = s.descriptor_handle
      · subst hkk
        rw [hk] at hl
        injection hl with hl1
        injection hl1 with hl2
        refine ⟨⟨s.StateVersion, s.payload⟩, ?_, ?_⟩
        · rw [← he1, lookup_set_entity_self, hk]; rfl
        · rw [← hl2] at hacc; exact le_of_lt hacc
      · exact ⟨st, by rw [← he1, lookup_set_entity_other e _ _ _ hkk]; exact hk,
          le_refl _⟩
    · rw [decide_eq_false hacc] at h
      simp only [Bool.false_eq_true, if_false] at h
      injection h with he1
      exact ⟨st, by rw [← he1]; exact hk, le_refl _⟩
  · rename_i hl
    injection h with he1
    by_cases hkk : k = s.descriptor_handle
    · subst hkk; rw [hk] at hl; exact absurd hl (by simp)
    · exact ⟨st, by rw [← he1, lookup_set_entity_other e _ _ _ hkk]; exact hk,
        le_refl _⟩

theorem apply_entry_self (e e1 : List (String × Option AbstractState))
    (b : Bool) (s : ReportState)
    (h : apply_state_report_entry e b s = some e1) :
    ∃ st1, lookup_entity e1 s.descriptor_handle = some (some st1) ∧
      s.StateVersion ≤ st1.StateVersion := by
  simp only [apply_state_report_entry] at h
  split at h
  · exact absurd h (by simp)
  · rename_i old hl
    rw [has_new_state_accept_iff] at h
    by_cases hacc : old.StateVersion < s.StateVersion
    · rw [decide_eq_true hacc, if_pos rfl] at h
      injection h with he1
      refine ⟨⟨s.StateVersion, s.payload⟩, ?_, le_refl _⟩
      rw [← he1, lookup_set_entity_self, hl]; rfl
    · rw [decide_eq_false hacc] at h
      simp only [Bool.false_eq_true, if_false] at h
      injection h with he1
      exact ⟨old, by rw [← he1]; exact hl, by omega⟩
  · rename_i hl
    injection h with he1
    refine ⟨⟨s.StateVersion, s.payload⟩, ?_, le_refl _⟩
    rw [← he1, lookup_set_entity_self, hl]; rfl

theorem apply_entries_mono (b : Bool) (l : List ReportState) :
    ∀ e e1, apply_state_report_entries b e l = some e1 →
    ∀ k st, lookup_entity e k = some (some st) →
    ∃ st1, lookup_entity e1 k = some (some st1) ∧
      st.StateVersion ≤ st1.StateVersion := by
  induction l with
  | nil =>
    intro e e1 h k st hk
    injection h with he1
    exact ⟨st, by rw [← he1]; exact hk, le_refl _⟩
  | cons s rest ih =>
    intro e e1 h k st hk
    simp only [apply_state_report_entries] at h
    cases he : apply_state_report_entry e b s with
    | none => rw [he] at h; exact absurd h (by simp)
    | some e2 =>
      rw [he] at h
      obtain ⟨st2, hk2, hle2⟩ := apply_entry_mono e e2 b s he k st hk
      obtain ⟨st1, hk1, hle1⟩ := ih e2 e1 h k st2 hk2
      exact ⟨st1, hk1, le_trans hle2 hle1⟩

theorem apply_entries_all (b : Bool) (l : List ReportState) :
    ∀ e e1, apply_state_report_entries b e l = some e1 →
    ∀ s ∈ l, ∃ st1, lookup_entity e1 s.descriptor_handle = some (some st1) ∧
      s.StateVersion ≤ st1.StateVersion := by
  induction l with
  | nil => intro e e1 _ s hs; exact absurd hs (by simp)
  | cons s0 rest ih =>
    intro e e1 h s hs
    simp only [apply_state_report_entries] at h
    cases he : apply_state_report_entry e b s0 with
    | none => rw [he] at h; exact absurd h (by simp)
    | some e2 =>
      rw [he] at h
      rcases List.mem_cons.mp hs with hhead | htail
      · subst hhead
        obtain ⟨st2, hk2, hle2⟩ := apply_entry_self e e2 b s he
        obtain ⟨st1, hk1, hle1⟩ := apply_entries_mono b rest e2 e1 h _ st2 hk2
        exact ⟨st1, hk1, le_trans hle2 hle1⟩
      · exact ih e2 e1 h s htail

theorem apply_entries_noop (b : Bool) (l : List ReportState) :
    ∀ e, (∀ s ∈ l, ∃ st, lookup_entity e s.descriptor_handle = some (some st) ∧
        s.StateVersion ≤ st.StateVersion) →
    apply_state_report_entries b e l = some e := by
  induction l with
  | nil => intro e _; rfl
  | cons s rest ih =>
    intro e hall
    obtain ⟨st, hl, hle⟩ := hall s (List.mem_cons_self s rest)
    have hstep : apply_state_report_entry e b s = some e := by
      simp only [apply_state_report_entry]
      split
      · rename_i hl2; rw [hl2] at hl; exact absurd hl (by simp)
      · rename_i old hl2
        rw [hl2] at hl
        injection hl with hl3
        injection hl3 with hl4
        rw [hl4, has_new_state_accept_iff, decide_eq_false (not_lt.mpr hle)]
        simp
      · rename_i hl2; rw [hl2] at hl; exact absurd hl (by simp)
    simp only [apply_state_report_entries, hstep]
    exact ih e (fun s2 hs2 => hall s2 (List.mem_cons_of_mem s hs2))

theorem apply_entries_total (b : Bool) (l : List ReportState) :
    ∀ e, (∀ s ∈ l, (lookup_entity e s.descriptor_handle).isSome = true) →
    (apply_state_report_entries b e l).isSome = true := by
  induction l with
  | nil => intro e _; rfl
  | cons s rest ih =>
    intro e hall
    have hsome := hall s (List.mem_cons_self s rest)
    have hstep : (apply_state_report_entry e b s).isSome = true := by
      simp only [apply_state_report_entry]
      split
      · rename_i hl; rw [hl] at hsome; exact absurd hsome (by simp)
      · split_ifs <;> rfl
      · rfl
    obtain ⟨e2, he2⟩ := Option.isSome_iff_exists.mp hstep
    simp only [apply_state_report_entries, he2]
    refine ih e2 (fun s2 hs2 => ?_)
    rw [apply_entry_isSome e e2 b s he2]
    exact hall s2 (List.mem_cons_of_mem s hs2)

/-- Claim C7: applying the same state report twice in a row to an initialized
consumer mdib leaves the mdib unchanged after the second application.  Given
that every handle of the report is known (`h_handles`), that the first
application passed the version gate (`h_acc`, equal mdib version is
accepted), and that it produced `m1` (`h1`), the second application also
passes the gate and returns `m1` unchanged: every contained state now has a
`StateVersion` at most the stored one and is dropped (silently, as stored
and incoming data are identical). -/
theorem c7_idempotent_report_application (m m1 : CMdib) (r : Report)
    (h_handles : ∀ s ∈ r.report_parts.flatten,
      (lookup_entity m.entities s.descriptor_handle).isSome = true)
    (h_acc : (can_accept_version m (some r.mdib_version) r.sequence_id).2 = true)
    (h1 : process_incoming_states_report m r false = some m1) :
    (can_accept_version m1 (some r.mdib_version) r.sequence_id).2 = true ∧
    process_incoming_states_report m1 r false = some m1 := by
  cases hb : (can_accept_mdib_version m.check_disabled m.all_subscribed
      m.mdib_version (some r.mdib_version)).1 with
  | false =>
    exfalso
    simp only [can_accept_version, hb] at h_acc
    simp at h_acc
  | true =>
    by_cases hs : m.sequence_id = r.sequence_id
    · have hflag : m.seq_changed_flag = false := by
        by_cases hf : m.seq_changed_flag = true
        · exfalso
          have hseq : sequence_id_changed m r.sequence_id = (m, true) := by
            simp [sequence_id_changed, hs, hf]
          simp only [can_accept_version, hb, hseq] at h_acc
          simp at h_acc
        · exact Bool.eq_false_iff.mpr hf
      have hgate : can_accept_version m (some r.mdib_version) r.sequence_id =
          (m, true) := by
        simp [can_accept_version, hb, sequence_id_changed, hs, hflag]
      simp only [process_incoming_states_report, hgate] at h1
      rw [if_neg (by simp)] at h1
      have hents_some := apply_entries_total false r.report_parts.flatten
        m.entities h_handles
      obtain ⟨ents, hents⟩ := Option.isSome_iff_exists.mp hents_some
      have hup_ents : (update_from_mdib_version_group m r).entities = m.entities := rfl
      rw [hup_ents] at h1
      simp only [hents] at h1
      injection h1 with hm1
      subst hm1
      have hga : (can_accept_mdib_version m.check_disabled m.all_subscribed
          r.mdib_version (some r.mdib_version)).1 = true := by
        simp only [can_accept_mdib_version]
        split_ifs <;> simp
      constructor
      · simp [can_accept_version, update_from_mdib_version_group, hga,
          sequence_id_changed, hflag]
      · have hgate1 : can_accept_version
            { update_from_mdib_version_group m r with entities := ents }
            (some r.mdib_version) r.sequence_id =
            ({ update_from_mdib_version_group m r with entities := ents }, true) := by
          simp [can_accept_version, update_from_mdib_version_group, hga,
            sequence_id_changed, hflag]
        simp only [process_incoming_states_report, hgate1]
        rw [if_neg (by simp)]
        have hnoop := apply_entries_noop false r.report_parts.flatten ents
          (fun s hsm => apply_entries_all false r.report_parts.flatten
            m.entities ents hents s hsm)
        have hup2 : (update_from_mdib_version_group
            { update_from_mdib_version_group m r with entities := ents } r).entities =
            ents := rfl
        rw [hup2]
        simp only [hnoop]
        rfl
    · exfalso
      have hseq : sequence_id_changed m r.sequence_id =
          ({ m with seq_changed_flag := true, sequence_id := r.sequence_id }, true) := by
        simp [sequence_id_changed, hs]
      simp only [can_accept_version, hb, hseq] at h_acc
      simp at h_acc

/-- Claim C7, witness: consumer at mdib version 7 with one entity holding
state version 1, receiving the same report (mdib version 7, state version 2)
twice. -/
theorem c7_idempotent_report_application_witness :
    (∀ s ∈ (⟨7, "A", none, [[⟨"h", 2, 9⟩]]⟩ : Report).report_parts.flatten,
      (lookup_entity (⟨7, "A", none, false, false, true, true,
        [("h", some ⟨1, 5⟩)]⟩ : CMdib).entities s.descriptor_handle).isSome = true) ∧
    ((can_accept_version ⟨7, "A", none, false, false, true, true, [("h", some ⟨1, 5⟩)]⟩
        (some (⟨7, "A", none, [[⟨"h", 2, 9⟩]]⟩ : Report).mdib_version)
        (⟨7, "A", none, [[⟨"h", 2, 9⟩]]⟩ : Report).sequence_id).2 = true) ∧
    (process_incoming_states_report
        ⟨7, "A", none, false, false, true, true, [("h", some ⟨1, 5⟩)]⟩
        ⟨7, "A", none, [[⟨"h", 2, 9⟩]]⟩ false =
      some ⟨7, "A", none, false, false, true, true, [("h", some ⟨2, 9⟩)]⟩) ∧
    ((can_accept_version ⟨7, "A", none, false, false, true, true, [("h", some ⟨2, 9⟩)]⟩
        (some (⟨7, "A", none, [[⟨"h", 2, 9⟩]]⟩ : Report).mdib_version)
        (⟨7, "A", none, [[⟨"h", 2, 9⟩]]⟩ : Report).sequence_id).2 = true ∧
     process_incoming_states_report
        ⟨7, "A", none, false, false, true, true, [("h", some ⟨2, 9⟩)]⟩
        ⟨7, "A", none, [[⟨"h", 2, 9⟩]]⟩ false =
      some ⟨7, "A", none, false, false, true, true, [("h", some ⟨2, 9⟩)]⟩) :=
  ⟨by decide, by decide, by decide,
   c7_idempotent_report_application
     ⟨7, "A", none, false, false, true, true, [("h", some ⟨1, 5⟩)]⟩
     ⟨7, "A", none, false, false, true, true, [("h", some ⟨2, 9⟩)]⟩
     ⟨7, "A", none, [[⟨"h", 2, 9⟩]]⟩
     (by decide) (by decide) (by decide)⟩
